import Mathlib

/-!
Shallow embedding of the qkart-backend cart service and user model
(src/services/cart.service.js, src/models/user.model.js).

The document database is modelled as lists of records; `findOne` is the
first match in the list, `save` replaces the record with the matching key
(carts and users are keyed by email, products by id), `create` appends.
JS numbers used for money and quantities are modelled as `Int`.
-/

namespace QKart

/-- Decidable equality of service results. -/
instance instDecEqExcept {ε α : Type} [DecidableEq ε] [DecidableEq α] :
    DecidableEq (Except ε α) := fun a b =>
  match a, b with
  | Except.ok x, Except.ok y =>
    if h : x = y then Decidable.isTrue (by rw [h])
    else Decidable.isFalse (fun hc => h (by injection hc))
  | Except.ok _, Except.error _ => Decidable.isFalse (fun hc => Except.noConfusion hc)
  | Except.error _, Except.ok _ => Decidable.isFalse (fun hc => Except.noConfusion hc)
  | Except.error x, Except.error y =>
    if h : x = y then Decidable.isTrue (by rw [h])
    else Decidable.isFalse (fun hc => h (by injection hc))

/-- Product record from the products collection: identifier and cost. -/
structure Product where
  id : String
  cost : Int
deriving DecidableEq, Repr

/-- Cart line item: a product snapshot plus a quantity. -/
structure CartItem where
  product : Product
  quantity : Int
deriving DecidableEq, Repr

/-- Cart document: owning user email and the ordered list of line items. -/
structure Cart where
  email : String
  cartItems : List CartItem
deriving DecidableEq, Repr

/-- User record fields touched by the cart service. -/
structure User where
  email : String
  walletMoney : Int
  address : String
deriving DecidableEq, Repr

/-- ApiError carries an HTTP status code and a human message
(src/utils/ApiError.js collaborator). httpStatus.NOT_FOUND is 404,
httpStatus.BAD_REQUEST is 400. -/
structure ApiError where
  statusCode : Nat
  message : String
deriving DecidableEq, Repr

/-- Database state: the products, carts and users collections. -/
structure DB where
  products : List Product
  carts : List Cart
  users : List User
deriving DecidableEq, Repr

/-- Product.findOne by _id. -/
def findOneProduct (db : DB) (productId : String) : Option Product :=
  db.products.find? (fun p => p.id == productId)

/-- Cart.findOne by owning email (one cart per user email). -/
def findOneCart (db : DB) (email : String) : Option Cart :=
  db.carts.find? (fun c => c.email == email)

/-- User.findOne by email. -/
def findOneUser (db : DB) (email : String) : Option User :=
  db.users.find? (fun u => u.email == email)

/-- cart.save(): persist the modified cart under its email key
(replace the stored cart with that email, append when absent). -/
def saveCart (db : DB) (c : Cart) : DB :=
  if db.carts.any (fun c0 => c0.email == c.email) then
    { db with carts := db.carts.map (fun c0 => if c0.email == c.email then c else c0) }
  else
    { db with carts := db.carts ++ [c] }

/-- Cart.create(): insert a new cart document. -/
def createCart (db : DB) (c : Cart) : DB :=
  { db with carts := db.carts ++ [c] }

/-- user.save(): persist the modified user under its email key. -/
def saveUser (db : DB) (u : User) : DB :=
  if db.users.any (fun u0 => u0.email == u.email) then
    { db with users := db.users.map (fun u0 => if u0.email == u.email then u else u0) }
  else
    { db with users := db.users ++ [u] }

/-- Modelled from the spec: config.default_address (src/config/config.js is
not part of the sources); the single configured default address string is
threaded as an explicit parameter. -/
def hasSetNonDefaultAddress (defaultAddress : String) (user : User) : Bool :=
  user.address != defaultAddress

/-- getCartByUser: fetch the cart for a user; 404 NOT FOUND
"User does not have a cart" when absent. No mutation. -/
def getCartByUser (db : DB) (user : User) : Except ApiError Cart :=
  match findOneCart db user.email with
  | some userCart => Except.ok userCart
  | none => Except.error ⟨404, "User does not have a cart"⟩

/-- In JS an array object (such as a filter result) is always truthy, so
the negation of a filter result is always false. -/
def jsFalsyArray (l : List CartItem) : Bool := false

/-- addProductToCart: fail 400 when the product is not in the products
collection; fetch or create the cart; fail 400 on a duplicate line item;
otherwise push a new line item and save. -/
def addProductToCart (db : DB) (user : User) (productId : String) (quantity : Int) :
    Except ApiError Cart × DB :=
  match findOneProduct db productId with
  | none => (Except.error ⟨400, "Product doesn\x27t exist in database"⟩, db)
  | some prod =>
    let found := findOneCart db user.email
    let userCart : Cart := match found with
      | some c => c
      | none => ⟨user.email, []⟩
    let db1 : DB := match found with
      | some _ => db
      | none => createCart db ⟨user.email, []⟩
    if (userCart.cartItems.filter (fun item => item.product.id == productId)).length ≠ 0 then
      (Except.error ⟨400,
        "Product already in cart. Use the cart sidebar to update or remove product from cart"⟩,
       db1)
    else
      let cart' : Cart := { userCart with cartItems := userCart.cartItems ++ [⟨prod, quantity⟩] }
      (Except.ok cart', saveCart db1 cart')

/-- deleteProductFromCart: fail 400 when the user has no cart; the
"Product not in cart" guard tests the negation of a filter result, which
is an array and hence always truthy, so that guard never fires; then keep
only the line items whose product id differs and save. -/
def deleteProductFromCart (db : DB) (user : User) (productId : String) :
    Except ApiError Cart × DB :=
  match findOneCart db user.email with
  | none => (Except.error ⟨400, "User does not have a cart"⟩, db)
  | some userCart =>
    let updateProduct := userCart.cartItems.filter (fun item => item.product.id == productId)
    if jsFalsyArray updateProduct then
      (Except.error ⟨400, "Product not in cart"⟩, db)
    else
      let cart' : Cart :=
        { userCart with
          cartItems := userCart.cartItems.filter (fun item => !(item.product.id == productId)) }
      (Except.ok cart', saveCart db cart')

/-- updateProduct[0].quantity = quantity: the filter result aliases the
cart items, so assigning through its head mutates the first matching
line item of the list in place. -/
def setFirstMatchQuantity : List CartItem → String → Int → List CartItem
  | [], _, _ => []
  | item :: rest, productId, quantity =>
    if item.product.id == productId then { item with quantity := quantity } :: rest
    else item :: setFirstMatchQuantity rest productId quantity

/-- updateProductInCart: fail 400 when the product is not in the products
collection; fail 400 when the user has no cart; fail 400 when the product
is not a line item; delegate to deleteProductFromCart when the new
quantity is ≤ 0; otherwise overwrite the first matching line item's
quantity and save. -/
def updateProductInCart (db : DB) (user : User) (productId : String) (quantity : Int) :
    Except ApiError Cart × DB :=
  match findOneProduct db productId with
  | none => (Except.error ⟨400, "Product doesn\x27t exist in database"⟩, db)
  | some _ =>
    match findOneCart db user.email with
    | none =>
      (Except.error ⟨400, "User does not have a cart. Use POST to create cart and add a product"⟩,
       db)
    | some userCart =>
      let updateProduct := userCart.cartItems.filter (fun item => item.product.id == productId)
      if updateProduct.length = 0 then
        (Except.error ⟨400, "Product not in cart"⟩, db)
      else if quantity ≤ 0 then
        deleteProductFromCart db user productId
      else
        let cart' : Cart :=
          { userCart with
            cartItems := setFirstMatchQuantity userCart.cartItems productId quantity }
        (Except.ok cart', saveCart db cart')

/-- totalBill: reduce over the cart items of quantity times product cost. -/
def cartTotal (c : Cart) : Int :=
  c.cartItems.foldl (fun sum item => sum + item.quantity * item.product.cost) 0

/-- checkout, with the two awaited persistence writes allowed to fail:
cartSaveOk and userSaveOk say whether cart.save() and user.save()
succeed; a rejected save propagates as a 500 error, and only the writes
that completed are reflected in the returned database state. -/
def checkoutFallible (defaultAddress : String) (db : DB) (user : User)
    (cartSaveOk userSaveOk : Bool) : Except ApiError Cart × DB :=
  match findOneCart db user.email with
  | none => (Except.error ⟨404, "User does not have a cart"⟩, db)
  | some userCart =>
    if userCart.cartItems.length = 0 then
      (Except.error ⟨400, "Cart is Empty"⟩, db)
    else if !(hasSetNonDefaultAddress defaultAddress user) then
      (Except.error ⟨400, "Address not set"⟩, db)
    else
      let totalBill := cartTotal userCart
      if totalBill > user.walletMoney then
        (Except.error ⟨400, "Insuficient Balance"⟩, db)
      else
        let user' : User := { user with walletMoney := user.walletMoney - totalBill }
        let cart' : Cart := { userCart with cartItems := [] }
        if !cartSaveOk then
          (Except.error ⟨500, "cart save failed"⟩, db)
        else
          let db1 := saveCart db cart'
          if !userSaveOk then
            (Except.error ⟨500, "user save failed"⟩, db1)
          else
            (Except.ok cart', saveUser db1 user')

/-- checkout with both persistence writes succeeding. -/
def checkout (defaultAddress : String) (db : DB) (user : User) :
    Except ApiError Cart × DB :=
  checkoutFallible defaultAddress db user true true

/-!
User model validators (src/models/user.model.js). The email regex is

  ^(([^<>()[\]\\.,;:\s@"]+(\.[^<>()[\]\\.,;:\s@"]+)*)|(".+"))@
   ((\[[0-9]\x7b1,3\x7d\.[0-9]\x7b1,3\x7d\.[0-9]\x7b1,3\x7d\.[0-9]\x7b1,3\x7d\])|
    (([a-zA-Z\-0-9]+\.)+[a-zA-Z]\x7b2,\x7d))$

implemented below as an executable matcher over the characters of the
tested string.
-/

/-- A character of an unquoted local-part atom: anything outside the
class <>()[]\.,;:@" and whitespace. -/
def emailLocalAtomChar (c : Char) : Bool :=
  !(c = '<' || c = '>' || c = '(' || c = ')' || c = '[' || c = ']' || c = '\\' ||
    c = '.' || c = ',' || c = ';' || c = ':' || c = '@' || c = '"' || c.isWhitespace)

/-- A character matched by the dot inside the quoted local-part
alternative: any character except a line terminator. -/
def emailDotChar (c : Char) : Bool :=
  !(c = '\n' || c = '\r' || c = '\u2028' || c = '\u2029')

/-- Local part: dot-separated nonempty atoms, or a quoted form of one or
more arbitrary non-terminator characters between double quotes. -/
def emailLocalPart (cs : List Char) : Bool :=
  ((cs.splitOn '.').all (fun a => a ≠ [] && a.all emailLocalAtomChar))
  ||
  (match cs with
   | '"' :: rest =>
     rest.length ≥ 2 && rest.getLast? = some '"' && rest.dropLast.all emailDotChar
   | _ => false)

/-- Domain alternative one: a bracketed IP literal of four groups of one
to three digits. -/
def emailDomainIp (cs : List Char) : Bool :=
  match cs with
  | '[' :: rest =>
    rest.getLast? = some ']' &&
    (let parts := rest.dropLast.splitOn '.'
     parts.length = 4 && parts.all (fun p => p ≠ [] && p.length ≤ 3 && p.all Char.isDigit))
  | _ => false

/-- A character of a domain label: [a-zA-Z\-0-9]. -/
def emailDomainChar (c : Char) : Bool :=
  c.isAlpha || c.isDigit || c = '-'

/-- Domain alternative two: one or more dot-terminated labels followed by
a top-level part of at least two letters. -/
def emailDomainNames (cs : List Char) : Bool :=
  let parts := cs.splitOn '.'
  parts.length ≥ 2 &&
  parts.dropLast.all (fun p => p ≠ [] && p.all emailDomainChar) &&
  (match parts.getLast? with
   | some t => t.length ≥ 2 && t.all Char.isAlpha
   | none => false)

/-- re.test for the anchored email regex: the whole string splits as
local part, an @ sign, and a domain. Every split position is tried since
the quoted local-part form may itself contain an @ sign. -/
def emailRegexTest (s : String) : Bool :=
  let cs := s.data
  (List.range (cs.length + 1)).any (fun i =>
    match cs.drop i with
    | '@' :: d => emailLocalPart (cs.take i) && (emailDomainIp d || emailDomainNames d)
    | _ => false)

/-- JS strict equality between a string and a boolean compares values of
different types and is therefore always false. -/
def jsStrictEqStringBool (s : String) (b : Bool) : Bool := false

/-- JS String() of a boolean. -/
def jsStringOfBool (b : Bool) : String :=
  if b then "true" else "false"

/-- userSchema email validate(value): throws Invalid Email when
re.test(String(value).toLowerCase() === false) holds. The comparison
yields a boolean, which re.test coerces to its string form before
matching. -/
def userEmailValidate (value : String) : Except String Unit :=
  if emailRegexTest (jsStringOfBool (jsStrictEqStringBool value.toLower false)) then
    Except.error "Invalid Email"
  else
    Except.ok ()

/-- userSchema password validate(value): length below 8 throws, then a
missing digit or a missing letter throws, otherwise the value passes. -/
def userPasswordValidate (value : String) : Except String Unit :=
  if value.length < 8 then
    Except.error "Password must contain at least 8 characters"
  else if !(value.data.any Char.isDigit) || !(value.data.any Char.isAlpha) then
    Except.error "Password must contain at least one letter and one number"
  else
    Except.ok ()

/-- Every line item of every stored cart has a positive quantity. -/
def CartQuantitiesPositive (db : DB) : Prop :=
  ∀ c ∈ db.carts, ∀ item ∈ c.cartItems, 0 < item.quantity

instance decCartQuantitiesPositive (db : DB) : Decidable (CartQuantitiesPositive db) :=
  inferInstanceAs (Decidable (∀ c ∈ db.carts, ∀ item ∈ c.cartItems, 0 < item.quantity))

/-- One database transition performed by a cart service operation, for
any caller-chosen arguments (persistence writes may also fail during
checkout). -/
inductive ServiceStep (defaultAddress : String) : DB → DB → Prop
  | add (db : DB) (u : User) (productId : String) (quantity : Int) :
      ServiceStep defaultAddress db (addProductToCart db u productId quantity).2
  | update (db : DB) (u : User) (productId : String) (quantity : Int) :
      ServiceStep defaultAddress db (updateProductInCart db u productId quantity).2
  | del (db : DB) (u : User) (productId : String) :
      ServiceStep defaultAddress db (deleteProductFromCart db u productId).2
  | checkoutStep (db : DB) (u : User) (cartSaveOk userSaveOk : Bool) :
      ServiceStep defaultAddress db (checkoutFallible defaultAddress db u cartSaveOk userSaveOk).2

/-- One database transition performed by a cart service operation where
every addProductToCart call receives a positive quantity. -/
inductive ServiceStepPos (defaultAddress : String) : DB → DB → Prop
  | add (db : DB) (u : User) (productId : String) (quantity : Int) (hq : 0 < quantity) :
      ServiceStepPos defaultAddress db (addProductToCart db u productId quantity).2
  | update (db : DB) (u : User) (productId : String) (quantity : Int) :
      ServiceStepPos defaultAddress db (updateProductInCart db u productId quantity).2
  | del (db : DB) (u : User) (productId : String) :
      ServiceStepPos defaultAddress db (deleteProductFromCart db u productId).2
  | checkoutStep (db : DB) (u : User) (cartSaveOk userSaveOk : Bool) :
      ServiceStepPos defaultAddress db
        (checkoutFallible defaultAddress db u cartSaveOk userSaveOk).2

/-- Fixture product, cost 100. -/
def exProduct : Product := ⟨"p1", 100⟩

/-- Fixture user: wallet 500, non-default address. -/
def exUser : User := ⟨"u@x.com", 500, "123 Main St"⟩

/-- Fixture cart holding two units of the fixture product. -/
def exCart : Cart := ⟨"u@x.com", [⟨exProduct, 2⟩]⟩

/-- Fixture database: one product, one cart, one user. -/
def exDb : DB := ⟨[exProduct], [exCart], [exUser]⟩

/-- Fixture database without any cart. -/
def exDbNoCarts : DB := ⟨[exProduct], [], [exUser]⟩

/-- Fixture database whose cart references a product that is absent from
the products collection. -/
def exDbNoProducts : DB := ⟨[], [exCart], [exUser]⟩

/-- Fixture user whose wallet cannot cover the fixture cart total. -/
def exUserPoor : User := ⟨"u@x.com", 100, "123 Main St"⟩

/-- Fixture user with a low wallet who kept the default address. -/
def exUserDefault : User := ⟨"u@x.com", 100, "ADDRESS_NOT_SET"⟩

/-- Fixture user whose wallet equals the fixture cart total exactly. -/
def exUserExact : User := ⟨"u@x.com", 200, "123 Main St"⟩

/-- Fixture database for the exact-balance user. -/
def exDbPoorExact : DB := ⟨[exProduct], [exCart], [exUserExact]⟩

/-! Helper lemmas about the persistence collaborator model. -/

theorem findOneProduct_id {db : DB} {productId : String} {prod : Product}
    (h : findOneProduct db productId = some prod) : (prod.id == productId) = true := by
  unfold findOneProduct at h
  have h2 := List.find?_some h
  simpa using h2

theorem findOneCart_email {db : DB} {email : String} {c : Cart}
    (h : findOneCart db email = some c) : c.email = email := by
  have := List.find?_some h
  simpa using this

theorem findOneCart_mem {db : DB} {email : String} {c : Cart}
    (h : findOneCart db email = some c) : c ∈ db.carts :=
  List.mem_of_find?_eq_some h

theorem saveCart_products (db : DB) (c : Cart) : (saveCart db c).products = db.products := by
  unfold saveCart
  split <;> rfl

theorem saveCart_users (db : DB) (c : Cart) : (saveCart db c).users = db.users := by
  unfold saveCart
  split <;> rfl

theorem createCart_products (db : DB) (c : Cart) : (createCart db c).products = db.products := rfl

theorem saveUser_carts (db : DB) (u : User) : (saveUser db u).carts = db.carts := by
  unfold saveUser
  split <;> rfl

theorem cart_find_map_self (c : Cart) :
    ∀ l : List Cart, l.any (fun c0 => c0.email == c.email) = true →
    (l.map (fun c0 => if c0.email == c.email then c else c0)).find?
      (fun x => x.email == c.email) = some c := by
  intro l
  induction l with
  | nil => simp
  | cons hd tl ih =>
    intro h
    by_cases hhd : (hd.email == c.email) = true
    · simp [hhd, List.find?]
    · have hhd' : (hd.email == c.email) = false := by
        simpa using hhd
      have htl : tl.any (fun c0 => c0.email == c.email) = true := by
        simpa [hhd'] using h
      simpa [hhd', List.find?] using ih htl

theorem cart_find_append_self (c : Cart) :
    ∀ l : List Cart, l.any (fun c0 => c0.email == c.email) = false →
    (l ++ [c]).find? (fun x => x.email == c.email) = some c := by
  intro l
  induction l with
  | nil => simp [List.find?]
  | cons hd tl ih =>
    intro h
    have hhd : (hd.email == c.email) = false := by
      by_cases hx : (hd.email == c.email) = true
      · simp [hx] at h
      · simpa using hx
    have htl : tl.any (fun c0 => c0.email == c.email) = false := by
      simpa [hhd] using h
    simpa [hhd, List.find?] using ih htl

theorem findOneCart_saveCart_self (db : DB) (c : Cart) :
    findOneCart (saveCart db c) c.email = some c := by
  unfold findOneCart saveCart
  by_cases h : db.carts.any (fun c0 => c0.email == c.email) = true
  · simpa [h] using cart_find_map_self c db.carts h
  · have h' : db.carts.any (fun c0 => c0.email == c.email) = false := by
      simpa using h
    simpa [h'] using cart_find_append_self c db.carts h'

theorem user_find_map_self (u : User) :
    ∀ l : List User, l.any (fun u0 => u0.email == u.email) = true →
    (l.map (fun u0 => if u0.email == u.email then u else u0)).find?
      (fun x => x.email == u.email) = some u := by
  intro l
  induction l with
  | nil => simp
  | cons hd tl ih =>
    intro h
    by_cases hhd : (hd.email == u.email) = true
    · simp [hhd, List.find?]
    · have hhd' : (hd.email == u.email) = false := by
        simpa using hhd
      have htl : tl.any (fun u0 => u0.email == u.email) = true := by
        simpa [hhd'] using h
      simpa [hhd', List.find?] using ih htl

theorem user_find_append_self (u : User) :
    ∀ l : List User, l.any (fun u0 => u0.email == u.email) = false →
    (l ++ [u]).find? (fun x => x.email == u.email) = some u := by
  intro l
  induction l with
  | nil => simp [List.find?]
  | cons hd tl ih =>
    intro h
    have hhd : (hd.email == u.email) = false := by
      by_cases hx : (hd.email == u.email) = true
      · simp [hx] at h
      · simpa using hx
    have htl : tl.any (fun u0 => u0.email == u.email) = false := by
      simpa [hhd] using h
    simpa [hhd, List.find?] using ih htl

theorem findOneUser_saveUser_self (db : DB) (u : User) :
    findOneUser (saveUser db u) u.email = some u := by
  unfold findOneUser saveUser
  by_cases h : db.users.any (fun u0 => u0.email == u.email) = true
  · simpa [h] using user_find_map_self u db.users h
  · have h' : db.users.any (fun u0 => u0.email == u.email) = false := by
      simpa using h
    simpa [h'] using user_find_append_self u db.users h'

/-- Claim C8: the email field validator never rejects any input string;
the regex is applied to the string form of the always-false boolean
comparison, and the string of that boolean does not match the email
pattern, so no value raises Invalid Email. -/
theorem email_validator_never_rejects (value : String) :
    userEmailValidate value = Except.ok () := by
  unfold userEmailValidate jsStrictEqStringBool jsStringOfBool
  have h : emailRegexTest "false" = false := by decide
  simp [h]

/-- Claim C9: password validation succeeds exactly when the plaintext has
length at least 8, contains a digit, and contains a letter; otherwise it
rejects with a ValidationError. -/
theorem password_validator_iff (value : String) :
    userPasswordValidate value = Except.ok () ↔
      (8 ≤ value.length ∧ (∃ c ∈ value.data, c.isDigit = true) ∧
        (∃ c ∈ value.data, c.isAlpha = true)) := by
  unfold userPasswordValidate
  split_ifs with h1 h2
  · constructor
    · intro h
      exact absurd h (by simp)
    · rintro ⟨h8, -, -⟩
      omega
  · constructor
    · intro h
      exact absurd h (by simp)
    · rintro ⟨-, hd, ha⟩
      have hd' : value.data.any Char.isDigit = true := List.any_eq_true.mpr hd
      have ha' : value.data.any Char.isAlpha = true := List.any_eq_true.mpr ha
      simp [hd', ha'] at h2
  · have h2' : (∃ c ∈ value.data, c.isDigit = true) ∧ (∃ c ∈ value.data, c.isAlpha = true) := by
      simpa using h2
    constructor
    · intro _
      exact ⟨by omega, h2'.1, h2'.2⟩
    · intro _
      rfl

/-- Witness for C9 at a concrete passing password. -/
theorem password_validator_iff_witness :
    userPasswordValidate "passw0rd" = Except.ok () :=
  (password_validator_iff "passw0rd").mpr (by decide)

/-- Claim C1 (code bug): deleting a product that is not a line item of an
existing cart does not raise Product not in cart; the guard tests the
negation of a filter result, an array that is always truthy, so the call
returns the cart unchanged. -/
theorem delete_missing_product_returns_cart :
    deleteProductFromCart exDb exUser "p2" = (Except.ok exCart, exDb) ∧
    (deleteProductFromCart exDb exUser "p2").1 ≠
      Except.error ⟨400, "Product not in cart"⟩ := by
  constructor
  · decide
  · decide

/-- Counterexample for C5: with the product present in the cart but
absent from the products collection, update with quantity 0 fails while
delete succeeds, so the two calls disagree. -/
theorem update_zero_ne_delete_cx :
    updateProductInCart exDbNoProducts exUser "p1" 0 ≠
      deleteProductFromCart exDbNoProducts exUser "p1" ∧
    (updateProductInCart exDbNoProducts exUser "p1" 0).1 =
      Except.error ⟨400, "Product doesn\x27t exist in database"⟩ ∧
    (deleteProductFromCart exDbNoProducts exUser "p1").1 =
      Except.ok { exCart with cartItems := [] } := by
  refine ⟨by decide, by decide, by decide⟩

/-- Claim C5 (amended): when the product also exists in the products
collection, updateProductInCart with a non-positive quantity on a
product present in the cart returns exactly the result of
deleteProductFromCart on that product. -/
theorem update_nonpositive_eq_delete (db : DB) (u : User) (productId : String)
    (quantity : Int) (prod : Product) (c : Cart)
    (hp : findOneProduct db productId = some prod)
    (hc : findOneCart db u.email = some c)
    (hmem : (c.cartItems.filter (fun item => item.product.id == productId)).length ≠ 0)
    (hq : quantity ≤ 0) :
    updateProductInCart db u productId quantity = deleteProductFromCart db u productId := by
  unfold updateProductInCart
  simp [hp, hc, hmem, hq]

/-- Witness for C5 at the fixture database. -/
theorem update_nonpositive_eq_delete_witness :
    updateProductInCart exDb exUser "p1" 0 = deleteProductFromCart exDb exUser "p1" :=
  update_nonpositive_eq_delete exDb exUser "p1" 0 exProduct exCart
    (by decide) (by decide) (by decide) (by decide)

theorem setFirstMatch_split (productId : String) (quantity : Int) :
    ∀ (pre : List CartItem) (item : CartItem) (post : List CartItem),
    (∀ x ∈ pre, (x.product.id == productId) = false) →
    (item.product.id == productId) = true →
    setFirstMatchQuantity (pre ++ item :: post) productId quantity =
      pre ++ { item with quantity := quantity } :: post := by
  intro pre
  induction pre with
  | nil =>
    intro item post _ hmatch
    simp [setFirstMatchQuantity, hmatch]
  | cons hd tl ih =>
    intro item post hpre hmatch
    have hhd : (hd.product.id == productId) = false := hpre hd (by simp)
    have htl : ∀ x ∈ tl, (x.product.id == productId) = false := by
      intro x hx
      exact hpre x (by simp [hx])
    simp [setFirstMatchQuantity, hhd, ih item post htl hmatch]

/-- Counterexample for C10: the fixture cart contains the product with a
positive new quantity requested, yet the call mutates nothing and
returns an error because the product is missing from the products
collection. -/
theorem update_positive_frame_cx :
    (exCart.cartItems.filter (fun item => item.product.id == "p1")).length ≠ 0 ∧
    (updateProductInCart exDbNoProducts exUser "p1" 3).1 =
      Except.error ⟨400, "Product doesn\x27t exist in database"⟩ ∧
    (updateProductInCart exDbNoProducts exUser "p1" 3).2 = exDbNoProducts := by
  refine ⟨by decide, by decide, by decide⟩

/-- Claim C10 (amended): when the product also exists in the products
collection, updateProductInCart with a positive quantity rewrites only
the quantity of the first matching line item: its product snapshot,
every other line item and their order, and the owning email are
unchanged, and the updated cart is what gets persisted. -/
theorem update_positive_frame (db : DB) (u : User) (productId : String) (quantity : Int)
    (prod : Product) (c : Cart) (pre : List CartItem) (item : CartItem) (post : List CartItem)
    (hp : findOneProduct db productId = some prod)
    (hc : findOneCart db u.email = some c)
    (hsplit : c.cartItems = pre ++ item :: post)
    (hpre : ∀ x ∈ pre, (x.product.id == productId) = false)
    (hmatch : (item.product.id == productId) = true)
    (hq : 0 < quantity) :
    updateProductInCart db u productId quantity =
      (Except.ok { c with cartItems := pre ++ { item with quantity := quantity } :: post },
       saveCart db { c with cartItems := pre ++ { item with quantity := quantity } :: post }) := by
  have hmemf : item ∈ c.cartItems.filter (fun x => x.product.id == productId) := by
    rw [hsplit]
    exact List.mem_filter.mpr ⟨by simp, hmatch⟩
  have hlen : (c.cartItems.filter (fun x => x.product.id == productId)).length ≠ 0 := by
    have h0 := List.length_pos.mpr (List.ne_nil_of_mem hmemf)
    omega
  have hq' : ¬ quantity ≤ 0 := by omega
  unfold updateProductInCart
  simp [hp, hc, hlen, hq', hsplit,
    setFirstMatch_split productId quantity pre item post hpre hmatch]
  intro _ h2
  exact absurd (by simpa using hmatch) h2

/-- Witness for C10 at the fixture database with new quantity 7. -/
theorem update_positive_frame_witness :
    updateProductInCart exDb exUser "p1" 7 =
      (Except.ok { exCart with cartItems := [⟨exProduct, 7⟩] },
       saveCart exDb { exCart with cartItems := [⟨exProduct, 7⟩] }) :=
  update_positive_frame exDb exUser "p1" 7 exProduct exCart [] ⟨exProduct, 2⟩ []
    (by decide) (by decide) (by decide) (by decide) (by decide) (by decide)

theorem addProductToCart_success (db : DB) (u : User) (productId : String)
    (quantity : Int) (prod : Product) (old : List CartItem)
    (hp : findOneProduct db productId = some prod)
    (hfound : findOneCart db u.email = some ⟨u.email, old⟩)
    (hnotin : (old.filter (fun item => item.product.id == productId)).length = 0) :
    addProductToCart db u productId quantity =
      (Except.ok ⟨u.email, old ++ [⟨prod, quantity⟩]⟩,
       saveCart db ⟨u.email, old ++ [⟨prod, quantity⟩]⟩) := by
  unfold addProductToCart
  simp [hp, hfound, hnotin]

theorem addProductToCart_success_new_cart (db : DB) (u : User) (productId : String)
    (quantity : Int) (prod : Product)
    (hp : findOneProduct db productId = some prod)
    (hnone : findOneCart db u.email = none) :
    addProductToCart db u productId quantity =
      (Except.ok ⟨u.email, [⟨prod, quantity⟩]⟩,
       saveCart (createCart db ⟨u.email, []⟩) ⟨u.email, [⟨prod, quantity⟩]⟩) := by
  unfold addProductToCart
  simp [hp, hnone]

theorem addProductToCart_duplicate (db : DB) (u : User) (productId : String)
    (quantity : Int) (prod : Product) (c : Cart)
    (hp : findOneProduct db productId = some prod)
    (hc : findOneCart db u.email = some c)
    (hdup : (c.cartItems.filter (fun item => item.product.id == productId)).length ≠ 0) :
    addProductToCart db u productId quantity =
      (Except.error ⟨400,
        "Product already in cart. Use the cart sidebar to update or remove product from cart"⟩,
       db) := by
  unfold addProductToCart
  simp [hp, hc, hdup]

/-- Claim C6: adding a product that exists in the catalog and is not yet
in the cart appends exactly one new line item with that product and
quantity, keeping existing items; the persisted cart holds the same
items, and a second call with the same product fails with BadRequest and
leaves the database untouched. -/
theorem add_product_then_duplicate_rejected (db : DB) (u : User) (productId : String)
    (quantity : Int) (prod : Product) (old : List CartItem)
    (hp : findOneProduct db productId = some prod)
    (hold : findOneCart db u.email = some ⟨u.email, old⟩ ∨
      (findOneCart db u.email = none ∧ old = []))
    (hnotin : (old.filter (fun item => item.product.id == productId)).length = 0) :
    (addProductToCart db u productId quantity).1 =
      Except.ok ⟨u.email, old ++ [⟨prod, quantity⟩]⟩ ∧
    findOneCart (addProductToCart db u productId quantity).2 u.email =
      some ⟨u.email, old ++ [⟨prod, quantity⟩]⟩ ∧
    (addProductToCart (addProductToCart db u productId quantity).2 u productId quantity).1 =
      Except.error ⟨400,
        "Product already in cart. Use the cart sidebar to update or remove product from cart"⟩ ∧
    (addProductToCart (addProductToCart db u productId quantity).2 u productId quantity).2 =
      (addProductToCart db u productId quantity).2 := by
  have hpid := findOneProduct_id hp
  have hcart : ∃ db1 : DB, db1.products = db.products ∧
      addProductToCart db u productId quantity =
      (Except.ok ⟨u.email, old ++ [⟨prod, quantity⟩]⟩,
       saveCart db1 ⟨u.email, old ++ [⟨prod, quantity⟩]⟩) := by
    rcases hold with hfound | ⟨hnone, holdnil⟩
    · exact ⟨db, rfl, addProductToCart_success db u productId quantity prod old hp hfound hnotin⟩
    · subst holdnil
      exact ⟨createCart db ⟨u.email, []⟩, createCart_products db ⟨u.email, []⟩, by
        simpa using addProductToCart_success_new_cart db u productId quantity prod hp hnone⟩
  rcases hcart with ⟨db1, hprods, h1⟩
  have h2 : findOneCart (addProductToCart db u productId quantity).2 u.email =
      some ⟨u.email, old ++ [⟨prod, quantity⟩]⟩ := by
    rw [h1]
    exact findOneCart_saveCart_self db1 ⟨u.email, old ++ [⟨prod, quantity⟩]⟩
  have hp2 : findOneProduct (addProductToCart db u productId quantity).2 productId =
      some prod := by
    rw [h1]
    unfold findOneProduct
    rw [saveCart_products, hprods]
    exact hp
  have hmemNew : (⟨prod, quantity⟩ : CartItem) ∈
      (old ++ [(⟨prod, quantity⟩ : CartItem)]).filter
        (fun item => item.product.id == productId) :=
    List.mem_filter.mpr ⟨by simp, hpid⟩
  have hdup : (((⟨u.email, old ++ [⟨prod, quantity⟩]⟩ : Cart)).cartItems.filter
      (fun item => item.product.id == productId)).length ≠ 0 := by
    show ((old ++ [(⟨prod, quantity⟩ : CartItem)]).filter
      (fun item => item.product.id == productId)).length ≠ 0
    have h0 := List.length_pos.mpr (List.ne_nil_of_mem hmemNew)
    omega
  have h3 := addProductToCart_duplicate (addProductToCart db u productId quantity).2 u
    productId quantity prod ⟨u.email, old ++ [⟨prod, quantity⟩]⟩ hp2 h2 hdup
  exact ⟨by rw [h1], h2, by rw [h3], by rw [h3]⟩

/-- Witness for C6: first add on a database without a cart, then the
rejected duplicate add. -/
theorem add_product_then_duplicate_rejected_witness :
    (addProductToCart exDbNoCarts exUser "p1" 4).1 =
      Except.ok ⟨"u@x.com", [⟨exProduct, 4⟩]⟩ ∧
    findOneCart (addProductToCart exDbNoCarts exUser "p1" 4).2 "u@x.com" =
      some ⟨"u@x.com", [⟨exProduct, 4⟩]⟩ ∧
    (addProductToCart (addProductToCart exDbNoCarts exUser "p1" 4).2 exUser "p1" 4).1 =
      Except.error ⟨400,
        "Product already in cart. Use the cart sidebar to update or remove product from cart"⟩ ∧
    (addProductToCart (addProductToCart exDbNoCarts exUser "p1" 4).2 exUser "p1" 4).2 =
      (addProductToCart exDbNoCarts exUser "p1" 4).2 :=
  add_product_then_duplicate_rejected exDbNoCarts exUser "p1" 4 exProduct []
    (by decide) (Or.inr ⟨by decide, rfl⟩) (by decide)

/-! Branch lemmas for checkout. -/

theorem findOneCart_saveUser (db : DB) (u : User) (email : String) :
    findOneCart (saveUser db u) email = findOneCart db email := by
  unfold findOneCart
  rw [saveUser_carts]

theorem checkoutFallible_no_cart (dA : String) (db : DB) (u : User) (cs us : Bool)
    (h : findOneCart db u.email = none) :
    checkoutFallible dA db u cs us = (Except.error ⟨404, "User does not have a cart"⟩, db) := by
  unfold checkoutFallible
  simp [h]

theorem checkoutFallible_empty_cart (dA : String) (db : DB) (u : User) (cs us : Bool)
    (c : Cart) (hc : findOneCart db u.email = some c) (hlen : c.cartItems = []) :
    checkoutFallible dA db u cs us = (Except.error ⟨400, "Cart is Empty"⟩, db) := by
  unfold checkoutFallible
  simp [hc, hlen]

theorem checkoutFallible_default_address (dA : String) (db : DB) (u : User) (cs us : Bool)
    (c : Cart) (hc : findOneCart db u.email = some c) (hne : c.cartItems ≠ [])
    (haddr : u.address = dA) :
    checkoutFallible dA db u cs us = (Except.error ⟨400, "Address not set"⟩, db) := by
  unfold checkoutFallible
  have hlen : c.cartItems.length ≠ 0 := by
    simpa using hne
  simp [hc, hlen, hasSetNonDefaultAddress, haddr]

theorem checkoutFallible_insufficient (dA : String) (db : DB) (u : User) (cs us : Bool)
    (c : Cart) (hc : findOneCart db u.email = some c) (hne : c.cartItems ≠ [])
    (haddr : u.address ≠ dA) (hover : u.walletMoney < cartTotal c) :
    checkoutFallible dA db u cs us = (Except.error ⟨400, "Insuficient Balance"⟩, db) := by
  unfold checkoutFallible
  have hlen : c.cartItems.length ≠ 0 := by
    simpa using hne
  have hgt : cartTotal c > u.walletMoney := hover
  simp [hc, hlen, hasSetNonDefaultAddress, haddr, hgt]

theorem checkoutFallible_cart_save_fail (dA : String) (db : DB) (u : User) (us : Bool)
    (c : Cart) (hc : findOneCart db u.email = some c) (hne : c.cartItems ≠ [])
    (haddr : u.address ≠ dA) (hbal : cartTotal c ≤ u.walletMoney) :
    checkoutFallible dA db u false us = (Except.error ⟨500, "cart save failed"⟩, db) := by
  unfold checkoutFallible
  have hlen : c.cartItems.length ≠ 0 := by
    simpa using hne
  have hngt : ¬ cartTotal c > u.walletMoney := by omega
  simp [hc, hlen, hasSetNonDefaultAddress, haddr, hngt]

theorem checkoutFallible_user_save_fail (dA : String) (db : DB) (u : User)
    (c : Cart) (hc : findOneCart db u.email = some c) (hne : c.cartItems ≠ [])
    (haddr : u.address ≠ dA) (hbal : cartTotal c ≤ u.walletMoney) :
    checkoutFallible dA db u true false =
      (Except.error ⟨500, "user save failed"⟩, saveCart db { c with cartItems := [] }) := by
  unfold checkoutFallible
  have hlen : c.cartItems.length ≠ 0 := by
    simpa using hne
  have hngt : ¬ cartTotal c > u.walletMoney := by omega
  simp [hc, hlen, hasSetNonDefaultAddress, haddr, hngt]

theorem checkoutFallible_success (dA : String) (db : DB) (u : User)
    (c : Cart) (hc : findOneCart db u.email = some c) (hne : c.cartItems ≠ [])
    (haddr : u.address ≠ dA) (hbal : cartTotal c ≤ u.walletMoney) :
    checkoutFallible dA db u true true =
      (Except.ok { c with cartItems := [] },
       saveUser (saveCart db { c with cartItems := [] })
         { u with walletMoney := u.walletMoney - cartTotal c }) := by
  unfold checkoutFallible
  have hlen : c.cartItems.length ≠ 0 := by
    simpa using hne
  have hngt : ¬ cartTotal c > u.walletMoney := by omega
  simp [hc, hlen, hasSetNonDefaultAddress, haddr, hngt]

/-- Claim C3: with an existing non-empty cart, a non-default address and
a wallet covering the cart total, checkout returns the cart with an
empty line-item collection, persists that cart, and persists the user
with the wallet debited by exactly the total. -/
theorem checkout_success (dA : String) (db : DB) (u : User) (c : Cart)
    (hc : findOneCart db u.email = some c) (hne : c.cartItems ≠ [])
    (haddr : u.address ≠ dA) (hbal : cartTotal c ≤ u.walletMoney) :
    (checkout dA db u).1 = Except.ok { c with cartItems := [] } ∧
    findOneCart (checkout dA db u).2 u.email = some { c with cartItems := [] } ∧
    findOneUser (checkout dA db u).2 u.email =
      some { u with walletMoney := u.walletMoney - cartTotal c } := by
  have h := checkoutFallible_success dA db u c hc hne haddr hbal
  have hce : c.email = u.email := findOneCart_email hc
  unfold checkout
  refine ⟨by rw [h], ?_, ?_⟩
  · rw [h]
    have h2 := findOneCart_saveCart_self db { c with cartItems := [] }
    rw [findOneCart_saveUser]
    rw [← hce]
    simpa using h2
  · rw [h]
    simpa using findOneUser_saveUser_self (saveCart db { c with cartItems := [] })
      { u with walletMoney := u.walletMoney - cartTotal c }

/-- Witness for C3: wallet 500 and cart total 200 leave a persisted
wallet of 300 and an empty persisted cart. -/
theorem checkout_success_witness :
    (checkout "ADDRESS_NOT_SET" exDb exUser).1 =
      Except.ok { exCart with cartItems := [] } ∧
    findOneCart (checkout "ADDRESS_NOT_SET" exDb exUser).2 "u@x.com" =
      some { exCart with cartItems := [] } ∧
    findOneUser (checkout "ADDRESS_NOT_SET" exDb exUser).2 "u@x.com" =
      some { exUser with walletMoney := 300 } :=
  checkout_success "ADDRESS_NOT_SET" exDb exUser exCart
    (by decide) (by decide) (by decide) (by decide)

/-- Counterexample for C7: when the total exceeds the wallet the error
message is spelled Insuficient Balance, not Insufficient Balance; and
with a default address the call fails with Address not set even though
the total exceeds the wallet. -/
theorem checkout_balance_message_cx :
    exUserPoor.walletMoney < cartTotal exCart ∧
    (checkout "ADDRESS_NOT_SET" exDb exUserPoor).1 =
      Except.error ⟨400, "Insuficient Balance"⟩ ∧
    (checkout "ADDRESS_NOT_SET" exDb exUserPoor).1 ≠
      Except.error ⟨400, "Insufficient Balance"⟩ ∧
    exUserDefault.walletMoney < cartTotal exCart ∧
    (checkout "ADDRESS_NOT_SET" exDb exUserDefault).1 =
      Except.error ⟨400, "Address not set"⟩ := by
  refine ⟨by decide, by decide, by decide, by decide, by decide⟩

/-- Claim C7 (amended): checkout fails with BadRequest and the message
Insuficient Balance exactly when the cart exists, is non-empty, the
address is non-default, and the total strictly exceeds the wallet; when
those preconditions hold and the total equals the wallet, checkout
succeeds and the persisted wallet is 0. -/
theorem checkout_insufficient_iff (dA : String) (db : DB) (u : User) :
    ((checkout dA db u).1 = Except.error ⟨400, "Insuficient Balance"⟩ ↔
      ∃ c, findOneCart db u.email = some c ∧ c.cartItems ≠ [] ∧ u.address ≠ dA ∧
        u.walletMoney < cartTotal c) ∧
    (∀ c, findOneCart db u.email = some c → c.cartItems ≠ [] → u.address ≠ dA →
      cartTotal c = u.walletMoney →
      (checkout dA db u).1 = Except.ok { c with cartItems := [] } ∧
      findOneUser (checkout dA db u).2 u.email = some { u with walletMoney := 0 }) := by
  constructor
  · constructor
    · intro h
      unfold checkout at h
      cases hfc : findOneCart db u.email with
      | none =>
        rw [checkoutFallible_no_cart dA db u true true hfc] at h
        simp at h
      | some c =>
        by_cases hlen : c.cartItems = []
        · rw [checkoutFallible_empty_cart dA db u true true c hfc hlen] at h
          simp at h
        · by_cases haddr : u.address = dA
          · rw [checkoutFallible_default_address dA db u true true c hfc hlen haddr] at h
            simp at h
          · by_cases hover : u.walletMoney < cartTotal c
            · exact ⟨c, rfl, hlen, haddr, hover⟩
            · rw [checkoutFallible_success dA db u c hfc hlen haddr (by omega)] at h
              exact absurd h (by simp)
    · rintro ⟨c, hfc, hne, haddr, hover⟩
      unfold checkout
      rw [checkoutFallible_insufficient dA db u true true c hfc hne haddr hover]
  · intro c hfc hne haddr heq
    have hu : ({ u with walletMoney := u.walletMoney - cartTotal c } : User) =
        { u with walletMoney := 0 } := by
      rw [heq]
      simp
    have h := checkoutFallible_success dA db u c hfc hne haddr (by omega)
    unfold checkout
    constructor
    · rw [h]
    · rw [h, hu]
      simpa using findOneUser_saveUser_self (saveCart db { c with cartItems := [] })
        { u with walletMoney := 0 }

/-- Witness for C7 at a wallet exactly equal to the cart total. -/
theorem checkout_insufficient_iff_witness :
    (checkout "ADDRESS_NOT_SET" exDbPoorExact exUserExact).1 =
      Except.ok { exCart with cartItems := [] } ∧
    findOneUser (checkout "ADDRESS_NOT_SET" exDbPoorExact exUserExact).2 "u@x.com" =
      some { exUserExact with walletMoney := 0 } :=
  (checkout_insufficient_iff "ADDRESS_NOT_SET" exDbPoorExact exUserExact).2 exCart
    (by decide) (by decide) (by decide) (by decide)

/-- Counterexample for C2: when the user record write fails after the
cart write succeeded, the call reports an error yet the cleared cart is
durably stored while the wallet debit is not. -/
theorem checkout_partial_write_cx :
    (checkoutFallible "ADDRESS_NOT_SET" exDb exUser true false).1 =
      Except.error ⟨500, "user save failed"⟩ ∧
    (checkoutFallible "ADDRESS_NOT_SET" exDb exUser true false).2 ≠ exDb ∧
    (checkoutFallible "ADDRESS_NOT_SET" exDb exUser true false).2.carts =
      [{ exCart with cartItems := [] }] ∧
    (checkoutFallible "ADDRESS_NOT_SET" exDb exUser true false).2.users = exDb.users := by
  refine ⟨by decide, by decide, by decide, by decide⟩

/-- Claim C2 (amended): every precondition check happens before any
mutation, so any failure other than a failed persistence write leaves
the database unchanged; when both writes succeed, success persists both
the cleared cart and the debited user together. -/
theorem checkout_atomic (dA : String) (db : DB) (u : User) (cs us : Bool) :
    (∀ e, (checkoutFallible dA db u cs us).1 = Except.error e → e.statusCode ≠ 500 →
      (checkoutFallible dA db u cs us).2 = db) ∧
    (∀ c, (checkoutFallible dA db u true true).1 = Except.ok c →
      ∃ c0, findOneCart db u.email = some c0 ∧ c = { c0 with cartItems := [] } ∧
        (checkoutFallible dA db u true true).2 =
          saveUser (saveCart db c) { u with walletMoney := u.walletMoney - cartTotal c0 }) := by
  constructor
  · intro e he h500
    cases hfc : findOneCart db u.email with
    | none =>
      rw [checkoutFallible_no_cart dA db u cs us hfc]
    | some c =>
      by_cases hlen : c.cartItems = []
      · rw [checkoutFallible_empty_cart dA db u cs us c hfc hlen]
      · by_cases haddr : u.address = dA
        · rw [checkoutFallible_default_address dA db u cs us c hfc hlen haddr]
        · by_cases hover : u.walletMoney < cartTotal c
          · rw [checkoutFallible_insufficient dA db u cs us c hfc hlen haddr hover]
          · cases cs with
            | false =>
              rw [checkoutFallible_cart_save_fail dA db u us c hfc hlen haddr (by omega)]
            | true =>
              cases us with
              | false =>
                rw [checkoutFallible_user_save_fail dA db u c hfc hlen haddr (by omega)] at he
                have h1 : (⟨500, "user save failed"⟩ : ApiError) = e := by
                  injection he
                rw [← h1] at h500
                exact absurd rfl h500
              | true =>
                rw [checkoutFallible_success dA db u c hfc hlen haddr (by omega)] at he
                exact absurd he (by simp)
  · intro c hok
    cases hfc : findOneCart db u.email with
    | none =>
      rw [checkoutFallible_no_cart dA db u true true hfc] at hok
      exact absurd hok (by simp)
    | some c0 =>
      by_cases hlen : c0.cartItems = []
      · rw [checkoutFallible_empty_cart dA db u true true c0 hfc hlen] at hok
        exact absurd hok (by simp)
      · by_cases haddr : u.address = dA
        · rw [checkoutFallible_default_address dA db u true true c0 hfc hlen haddr] at hok
          exact absurd hok (by simp)
        · by_cases hover : u.walletMoney < cartTotal c0
          · rw [checkoutFallible_insufficient dA db u true true c0 hfc hlen haddr hover] at hok
            exact absurd hok (by simp)
          · have h := checkoutFallible_success dA db u c0 hfc hlen haddr (by omega)
            rw [h] at hok
            have hcc : c = { c0 with cartItems := [] } := by
              injection hok with h1
              exact h1.symm
            refine ⟨c0, rfl, hcc, ?_⟩
            rw [h, hcc]

/-- Witness for C2: a checkout without a cart fails with a non-500 error
and leaves the database unchanged. -/
theorem checkout_atomic_witness :
    (checkoutFallible "ADDRESS_NOT_SET" exDbNoCarts exUser true true).2 = exDbNoCarts :=
  (checkout_atomic "ADDRESS_NOT_SET" exDbNoCarts exUser true true).1
    ⟨404, "User does not have a cart"⟩ (by decide) (by decide)

/-! Preservation of positive quantities by each operation. -/

theorem pos_saveCart (db : DB) (c : Cart)
    (hdb : CartQuantitiesPositive db)
    (hc : ∀ item ∈ c.cartItems, 0 < item.quantity) :
    CartQuantitiesPositive (saveCart db c) := by
  intro c' hc' item hitem
  unfold saveCart at hc'
  split at hc'
  · rcases List.mem_map.mp hc' with ⟨c0, hc0, hfc0⟩
    by_cases hb : (c0.email == c.email) = true
    · rw [← hfc0] at hitem
      simp only [hb, if_true] at hitem
      exact hc item hitem
    · rw [← hfc0] at hitem
      simp only [hb, if_false] at hitem
      exact hdb c0 hc0 item hitem
  · rcases List.mem_append.mp hc' with hmem | hmem
    · exact hdb c' hmem item hitem
    · have : c' = c := by
        simpa using hmem
      rw [this] at hitem
      exact hc item hitem

theorem pos_createCart (db : DB) (c : Cart)
    (hdb : CartQuantitiesPositive db)
    (hc : ∀ item ∈ c.cartItems, 0 < item.quantity) :
    CartQuantitiesPositive (createCart db c) := by
  intro c' hc' item hitem
  unfold createCart at hc'
  rcases List.mem_append.mp hc' with hmem | hmem
  · exact hdb c' hmem item hitem
  · have : c' = c := by
      simpa using hmem
    rw [this] at hitem
    exact hc item hitem

theorem pos_saveUser (db : DB) (u : User)
    (hdb : CartQuantitiesPositive db) :
    CartQuantitiesPositive (saveUser db u) := by
  intro c' hc'
  rw [saveUser_carts] at hc'
  exact hdb c' hc'

theorem pos_setFirstMatchQuantity (productId : String) (quantity : Int) (hq : 0 < quantity) :
    ∀ items : List CartItem, (∀ item ∈ items, 0 < item.quantity) →
    ∀ item ∈ setFirstMatchQuantity items productId quantity, 0 < item.quantity := by
  intro items
  induction items with
  | nil =>
    intro _ item hitem
    simp [setFirstMatchQuantity] at hitem
  | cons hd tl ih =>
    intro hall item hitem
    unfold setFirstMatchQuantity at hitem
    split at hitem
    · rcases List.mem_cons.mp hitem with hh | ht
      · rw [hh]
        exact hq
      · exact hall item (by simp [ht])
    · rcases List.mem_cons.mp hitem with hh | ht
      · rw [hh]
        exact hall hd (by simp)
      · exact ih (fun x hx => hall x (by simp [hx])) item ht

theorem pos_addProductToCart (db : DB) (u : User) (productId : String) (quantity : Int)
    (hq : 0 < quantity) (hdb : CartQuantitiesPositive db) :
    CartQuantitiesPositive (addProductToCart db u productId quantity).2 := by
  unfold addProductToCart
  cases hp : findOneProduct db productId with
  | none => exact hdb
  | some prod =>
    cases hfc : findOneCart db u.email with
    | some c =>
      simp only
      split
      · exact hdb
      · apply pos_saveCart db _ hdb
        intro item hitem
        rcases List.mem_append.mp hitem with hmem | hmem
        · exact hdb c (findOneCart_mem hfc) item hmem
        · have : item = ⟨prod, quantity⟩ := by
            simpa using hmem
          rw [this]
          exact hq
    | none =>
      simp only
      split
      · exact pos_createCart db ⟨u.email, []⟩ hdb (by simp)
      · apply pos_saveCart (createCart db ⟨u.email, []⟩) _
          (pos_createCart db ⟨u.email, []⟩ hdb (by simp))
        intro item hitem
        have : item = (⟨prod, quantity⟩ : CartItem) := by
          simpa using hitem
        rw [this]
        exact hq

theorem pos_deleteProductFromCart (db : DB) (u : User) (productId : String)
    (hdb : CartQuantitiesPositive db) :
    CartQuantitiesPositive (deleteProductFromCart db u productId).2 := by
  unfold deleteProductFromCart
  cases hfc : findOneCart db u.email with
  | none => exact hdb
  | some c =>
    simp only [jsFalsyArray, Bool.false_eq_true, if_false]
    apply pos_saveCart db _ hdb
    intro item hitem
    exact hdb c (findOneCart_mem hfc) item (List.mem_of_mem_filter hitem)

theorem pos_updateProductInCart (db : DB) (u : User) (productId : String) (quantity : Int)
    (hdb : CartQuantitiesPositive db) :
    CartQuantitiesPositive (updateProductInCart db u productId quantity).2 := by
  unfold updateProductInCart
  cases hp : findOneProduct db productId with
  | none => exact hdb
  | some prod =>
    cases hfc : findOneCart db u.email with
    | none => exact hdb
    | some c =>
      simp only
      split
      · exact hdb
      · split
        · exact pos_deleteProductFromCart db u productId hdb
        · rename_i hqle
          apply pos_saveCart db _ hdb
          exact pos_setFirstMatchQuantity productId quantity (by omega) c.cartItems
            (hdb c (findOneCart_mem hfc))

theorem pos_checkoutFallible (dA : String) (db : DB) (u : User) (cs us : Bool)
    (hdb : CartQuantitiesPositive db) :
    CartQuantitiesPositive (checkoutFallible dA db u cs us).2 := by
  unfold checkoutFallible
  cases hfc : findOneCart db u.email with
  | none => exact hdb
  | some c =>
    simp only
    split
    · exact hdb
    · split
      · exact hdb
      · split
        · exact hdb
        · split
          · exact hdb
          · split
            · refine pos_saveCart db _ hdb ?_
              intro item hitem
              exact absurd hitem (by simp)
            · refine pos_saveUser _ _ (pos_saveCart db _ hdb ?_)
              intro item hitem
              exact absurd hitem (by simp)

/-- Counterexample for C4: starting from a database whose carts all have
positive quantities, a single reachable addProductToCart step with
quantity 0 stores a line item with quantity 0. -/
theorem cart_positive_reachable_cx :
    CartQuantitiesPositive exDbNoCarts ∧
    Relation.ReflTransGen (ServiceStep "ADDRESS_NOT_SET") exDbNoCarts
      ((addProductToCart exDbNoCarts exUser "p1" 0).2) ∧
    ¬ CartQuantitiesPositive ((addProductToCart exDbNoCarts exUser "p1" 0).2) :=
  ⟨by decide, Relation.ReflTransGen.single (ServiceStep.add exDbNoCarts exUser "p1" 0),
   by decide⟩

/-- Claim C4 (amended): along any sequence of service operations in which
every addProductToCart call receives a positive quantity, every stored
line item keeps a positive quantity; update with a non-positive quantity
removes the item via delete rather than storing it. -/
theorem cart_positive_preserved (dA : String) (db0 db : DB)
    (h0 : CartQuantitiesPositive db0)
    (hreach : Relation.ReflTransGen (ServiceStepPos dA) db0 db) :
    CartQuantitiesPositive db := by
  induction hreach with
  | refl => exact h0
  | tail _ hstep ih =>
    cases hstep with
    | add u productId quantity hq => exact pos_addProductToCart _ u productId quantity hq ih
    | update u productId quantity => exact pos_updateProductInCart _ u productId quantity ih
    | del u productId => exact pos_deleteProductFromCart _ u productId ih
    | checkoutStep u cs us => exact pos_checkoutFallible dA _ u cs us ih

/-- Witness for C4: one positive update step from the fixture database
keeps all quantities positive. -/
theorem cart_positive_preserved_witness :
    CartQuantitiesPositive ((updateProductInCart exDb exUser "p1" 5).2) :=
  cart_positive_preserved "ADDRESS_NOT_SET" exDb
    ((updateProductInCart exDb exUser "p1" 5).2) (by decide)
    (Relation.ReflTransGen.single (ServiceStepPos.update exDb exUser "p1" 5))

end QKart
